import Mathlib

/-!
Verification of the world-connect signaling/matchmaking core.

Shallow embedding of the Firestore-backed room/presence/chat services
(src/lib/roomService.ts, src/lib/userService.ts) and of the client-side
signaling handlers in src/components/VideoChat.tsx.  Firestore documents
become records, collections become lists in insertion order, `addDoc`
appends with a fresh numeric id, `updateDoc` maps over the list, and a
query is a filter (with `orderBy timestamp` modelled as a stable sort).
Opaque WebRTC payloads (session descriptions, ICE candidates) are
modelled as natural numbers.
-/

namespace WorldConnect

/-- Opaque WebRTC payload (RTCSessionDescriptionInit / RTCIceCandidateInit). -/
abbrev Payload := Nat

/-- A document of the rooms collection (interface Room in roomService.ts). -/
structure Room where
  id : Nat
  participant1Id : String
  participant2Id : String
  isActive : Bool
  createdAt : Nat
  offer : Option Payload := none
  answer : Option Payload := none
deriving Repr, DecidableEq

/-- A document of the chatMessages collection (interface ChatMessage). -/
structure ChatMessage where
  id : Nat
  roomId : Nat
  senderId : String
  content : String
  timestamp : Nat
deriving Repr, DecidableEq

/-- A document of the users collection, restricted to the fields the
matchmaking code reads (uid, isOnline). -/
structure UserRec where
  uid : String
  isOnline : Bool
deriving Repr, DecidableEq

/-- The Firestore state: the three collections, a fresh-id counter for
addDoc, and a clock for Timestamp.now(). -/
structure DB where
  rooms : List Room
  messages : List ChatMessage
  users : List UserRec
  nextId : Nat
  now : Nat
deriving Repr, DecidableEq

/-- The empty store. -/
def db0 : DB := { rooms := [], messages := [], users := [], nextId := 0, now := 0 }

/-- createRoom (roomService.ts): addDoc a new active room document. -/
def createRoom (db : DB) (participant1Id participant2Id : String) : Nat × DB :=
  let r : Room :=
    { id := db.nextId, participant1Id := participant1Id, participant2Id := participant2Id,
      isActive := true, createdAt := db.now }
  (db.nextId, { db with rooms := db.rooms ++ [r], nextId := db.nextId + 1, now := db.now + 1 })

/-- updateRoomStatus (roomService.ts): updateDoc the isActive field. -/
def updateRoomStatus (db : DB) (roomId : Nat) (isActive : Bool) : DB :=
  { db with rooms := db.rooms.map fun r =>
      if r.id = roomId then { r with isActive := isActive } else r }

/-- getActiveRoomsForUser (roomService.ts): the two queries
(isActive && participant1Id == userId, isActive && participant2Id == userId)
concatenated. -/
def getActiveRoomsForUser (db : DB) (userId : String) : List Room :=
  db.rooms.filter (fun r => r.isActive && r.participant1Id == userId)
    ++ db.rooms.filter (fun r => r.isActive && r.participant2Id == userId)

/-- Result of findOrCreateRoom / createRoomWithUser in part_009. -/
structure MatchResult where
  roomId : Nat
  partnerId : String
  isInitiator : Bool
deriving Repr, DecidableEq

/-- The query of findOrCreateRoom: active rooms with an empty second seat. -/
def openSeatRooms (db : DB) : List Room :=
  db.rooms.filter fun r => r.isActive && r.participant2Id == ""

/-- The create branch of findOrCreateRoom: addDoc a room with the requester
as participant1 and an empty second seat; requester is the initiator. -/
def createOpenRoom (db : DB) (userId : String) : MatchResult × DB :=
  let created := createRoom db userId ("")
  ({ roomId := created.1, partnerId := "", isInitiator := true }, created.2)

/-- findOrCreateRoom (part_009 lines 357..408): join the first open-seat
room if it is not our own, otherwise create a new open room. -/
def findOrCreateRoom (db : DB) (userId : String) : MatchResult × DB :=
  match openSeatRooms db with
  | roomDoc :: _ =>
    if roomDoc.participant1Id ≠ userId then
      ({ roomId := roomDoc.id, partnerId := roomDoc.participant1Id, isInitiator := false },
       { db with rooms := db.rooms.map fun r =>
           if r.id = roomDoc.id then { r with participant2Id := userId } else r })
    else
      createOpenRoom db userId
  | [] => createOpenRoom db userId

/-- createRoomWithUser (part_009 lines 411..473): return an existing active
room between the pair (in either orientation) or create a fresh one. -/
def createRoomWithUser (db : DB) (userId partnerId : String) : MatchResult × DB :=
  let q1 := db.rooms.filter fun r =>
    r.isActive && r.participant1Id == userId && r.participant2Id == partnerId
  let q2 := db.rooms.filter fun r =>
    r.isActive && r.participant1Id == partnerId && r.participant2Id == userId
  match q1 with
  | roomDoc :: _ => ({ roomId := roomDoc.id, partnerId := partnerId, isInitiator := true }, db)
  | [] =>
    match q2 with
    | roomDoc :: _ => ({ roomId := roomDoc.id, partnerId := partnerId, isInitiator := false }, db)
    | [] =>
      let created := createRoom db userId partnerId
      ({ roomId := created.1, partnerId := partnerId, isInitiator := true }, created.2)

/-- sendChatMessage (roomService.ts lines 237..252): addDoc the message,
unconditionally; succeeds with the fresh document id. -/
def sendChatMessage (db : DB) (roomId : Nat) (senderId content : String) : Option Nat × DB :=
  let m : ChatMessage :=
    { id := db.nextId, roomId := roomId, senderId := senderId, content := content,
      timestamp := db.now }
  (some db.nextId,
   { db with messages := db.messages ++ [m], nextId := db.nextId + 1, now := db.now + 1 })

/-- Timestamp order on chat messages (orderBy timestamp asc). -/
def msgLe (a b : ChatMessage) : Prop := a.timestamp ≤ b.timestamp

instance : DecidableRel msgLe := fun a b => inferInstanceAs (Decidable (a.timestamp ≤ b.timestamp))

instance : IsTotal ChatMessage msgLe := ⟨fun a b => Nat.le_total a.timestamp b.timestamp⟩

instance : IsTrans ChatMessage msgLe := ⟨fun _ _ _ hab hbc => Nat.le_trans hab hbc⟩

/-- One snapshot of subscribeToChatMessages (roomService.ts lines 276..294):
the query where roomId == rid, orderBy timestamp asc, delivered as a whole. -/
def chatSnapshot (db : DB) (rid : Nat) : List ChatMessage :=
  List.insertionSort msgLe (db.messages.filter fun m => m.roomId == rid)

/-- Run a list of sendChatMessage calls (roomId, senderId, content) in order. -/
def runSends : DB → List (Nat × String × String) → DB
  | db, [] => db
  | db, e :: rest => runSends (sendChatMessage db e.1 e.2.1 e.2.2).2 rest

/-- updateUserOnlineStatus (userService.ts): updateDoc the isOnline field. -/
def updateUserOnlineStatus (db : DB) (uid : String) (isOnline : Bool) : DB :=
  { db with users := db.users.map fun u =>
      if u.uid = uid then { u with isOnline := isOnline } else u }

/-- getOnlineUsers (userService.ts): query where isOnline == true. -/
def getOnlineUsers (db : DB) : List UserRec :=
  db.users.filter fun u => u.isOnline

/-- Outcome of one searchForPartner attempt (part_004 lines 146..189). -/
inductive SearchOutcome where
  | noPartners
  | typeError
  | matched (roomId : Nat) (partnerId : String)
deriving Repr, DecidableEq

/-- searchForPartner (part_004 lines 146..189).  availableUsers is the
component state (already filtered to exclude the requester by the users
subscription); when it is empty the code refreshes via getAllUsers into a
local filteredUsers and throws when that is also empty.  The selection
then indexes availableUsers (the stale closure value, NOT filteredUsers)
at floor(random * availableUsers.length); availableUsers[i] is undefined
when the list is empty, which raises a TypeError (modelled as
SearchOutcome.typeError).  On success createRoom(selfId, partner) runs. -/
def searchForPartner (db : DB) (selfId : String) (availableUsers : List String)
    (randomIndex : Nat) : SearchOutcome × DB :=
  if availableUsers.isEmpty && (db.users.filter fun u => u.uid != selfId).isEmpty then
    (SearchOutcome.noPartners, db)
  else
    match availableUsers[randomIndex]? with
    | none => (SearchOutcome.typeError, db)
    | some partner =>
      let created := createRoom db selfId partner
      (SearchOutcome.matched created.1 partner, created.2)

/-- Client-side signaling state of one participant in VideoChat.tsx:
the RTCPeerConnection ref (presence, remote/local description), the
pendingCandidatesRef queue, and logs of the calls made to
setRemoteDescription, addAnswerToRoom and addIceCandidate. -/
structure Client where
  isInitiator : Bool
  hasPC : Bool
  remoteDesc : Option Payload
  localDesc : Option Payload
  remoteSetLog : List Payload
  answersSent : List Payload
  pending : List Payload
  applied : List Payload
deriving Repr, DecidableEq

/-- The initiator branch of handleRoomSignaling: if an answer is present and
no remote description is set yet, setRemoteDescription(answer). -/
def applyAnswerGuarded (c : Client) (answer : Option Payload) : Client :=
  match answer, c.remoteDesc with
  | some a, none => { c with remoteDesc := some a, remoteSetLog := c.remoteSetLog ++ [a] }
  | _, _ => c

/-- The responder branch of handleRoomSignaling: if an offer is present and
no remote description is set yet, setRemoteDescription(offer), createAnswer,
setLocalDescription(answer), addAnswerToRoom(answer).  createAnswer is the
opaque media collaborator, passed in as answerFor. -/
def applyOfferGuarded (answerFor : Payload → Payload) (c : Client)
    (offer : Option Payload) : Client :=
  match offer, c.remoteDesc with
  | some o, none =>
    { c with remoteDesc := some o, remoteSetLog := c.remoteSetLog ++ [o],
             localDesc := some (answerFor o), answersSent := c.answersSent ++ [answerFor o] }
  | _, _ => c

/-- handleRoomSignaling (VideoChat.tsx lines 217..246), invoked with the
room snapshot's offer and answer slots; returns unchanged if the peer
connection ref is null. -/
def handleRoomSignaling (answerFor : Payload → Payload) (c : Client)
    (offer answer : Option Payload) : Client :=
  if c.hasPC then
    let c1 := if c.isInitiator then applyAnswerGuarded c answer else c
    if c1.isInitiator then c1 else applyOfferGuarded answerFor c1 offer
  else c

/-- The subscribeToAnswers callback installed by subscribeToRoomAnswers
(VideoChat.tsx lines 449..469): for the initiator with a live peer
connection it calls setRemoteDescription(answer) on every delivery,
with no consumed-answer guard. -/
def onAnswerDelivery (c : Client) (answer : Payload) : Client :=
  if c.isInitiator && c.hasPC then
    { c with remoteDesc := some answer, remoteSetLog := c.remoteSetLog ++ [answer] }
  else c

/-- The subscribeToUserIceCandidates callback installed by the local
subscribeToIceCandidates (VideoChat.tsx lines 472..493): apply the
candidate when the remote description is set, otherwise push it onto
pendingCandidatesRef. -/
def onIceCandidate (c : Client) (cand : Payload) : Client :=
  if c.hasPC && c.remoteDesc.isSome then { c with applied := c.applied ++ [cand] }
  else { c with pending := c.pending ++ [cand] }

/-- The while loop of processPendingCandidates: shift candidates off the
front of the queue and addIceCandidate each in order. -/
def flushPending : List Payload → Client → Client
  | [], c => c
  | cand :: rest, c => flushPending rest { c with applied := c.applied ++ [cand] }

/-- processPendingCandidates (VideoChat.tsx lines 496..510): when the remote
description is set, drain the pending queue in arrival order.  NOTE: no code
path in VideoChat.tsx ever calls this function. -/
def processPendingCandidates (c : Client) : Client :=
  if c.hasPC && c.remoteDesc.isSome then flushPending c.pending { c with pending := [] }
  else c

/-- Participant ids used for concrete scenarios. -/
def uA : String := "A"

def uB : String := "B"

def uC : String := "C"

def uX : String := "X"

def uY : String := "Y"

/-- A sample chat message body. -/
def helloMsg : String := "hi"

/-- Store holding one active direct room between A and B. -/
def dbPair : DB := (createRoomWithUser db0 uA uB).2

/-- Store holding one open-seat room created by B. -/
def dbOpenB : DB := (findOrCreateRoom db0 uB).2

/-- Store whose user registry holds online users X and Y. -/
def dbTwoUsers : DB :=
  { db0 with users := [{ uid := uX, isOnline := true }, { uid := uY, isOnline := true }] }

/-- Store whose user registry holds only the online user X. -/
def dbOnlyX : DB := { db0 with users := [{ uid := uX, isOnline := true }] }

/-- Decidable form of: the store holds an active room between u and p
(in either orientation). -/
def hasActivePair (db : DB) (u p : String) : Bool :=
  db.rooms.any fun r =>
    r.isActive && (r.participant1Id == u && r.participant2Id == p
      || r.participant1Id == p && r.participant2Id == u)

/-- A fresh initiator client: live peer connection, nothing set yet. -/
def initClient : Client :=
  { isInitiator := true, hasPC := true, remoteDesc := none, localDesc := none,
    remoteSetLog := [], answersSent := [], pending := [], applied := [] }

/-- Helper: running a batch of sends appends exactly the sent
(roomId, senderId, content) triples, in order, to the message log. -/
theorem runSends_messages_map (events : List (Nat × String × String)) :
    ∀ db : DB,
      (runSends db events).messages.map (fun m => (m.roomId, m.senderId, m.content)) =
        db.messages.map (fun m => (m.roomId, m.senderId, m.content)) ++ events := by
  induction events with
  | nil => intro db; simp [runSends]
  | cons e rest ih =>
    intro db
    obtain ⟨rid, sid, content⟩ := e
    simp only [runSends]
    rw [ih]
    simp [sendChatMessage]

/-- C1 counterexample: starting from an empty store, the direct-match
sequence createRoomWithUser(A,B) then createRoomWithUser(A,C) leaves
participant A a member of two simultaneously active rooms (as reported by
the source's own getActiveRoomsForUser query). -/
theorem c1_counterexample :
    (getActiveRoomsForUser (createRoomWithUser (createRoomWithUser db0 uA uB).2 uA uC).2 uA).length
      = 2 := by decide

/-- C1 (amended): when an active room between requester and target already
exists (in either orientation), createRoomWithUser returns that existing
room's id and creates no new room; the global one-active-session-per-
participant invariant does not hold. -/
theorem c1_amended (db : DB) (u p : String) (h : hasActivePair db u p = true) :
    (createRoomWithUser db u p).2 = db ∧
    ∃ r ∈ db.rooms, r.isActive = true ∧
      ((r.participant1Id = u ∧ r.participant2Id = p) ∨
       (r.participant1Id = p ∧ r.participant2Id = u)) ∧
      (createRoomWithUser db u p).1.roomId = r.id := by
  rcases hq1 : db.rooms.filter
      (fun r => r.isActive && r.participant1Id == u && r.participant2Id == p) with _ | ⟨r1, t1⟩
  · rcases hq2 : db.rooms.filter
        (fun r => r.isActive && r.participant1Id == p && r.participant2Id == u) with _ | ⟨r2, t2⟩
    · exfalso
      rcases List.any_eq_true.mp h with ⟨r, hr, hpred⟩
      simp only [Bool.and_eq_true, Bool.or_eq_true, beq_iff_eq] at hpred
      rcases hpred.2 with hcase | hcase
      · have hmem : r ∈ db.rooms.filter
            (fun r => r.isActive && r.participant1Id == u && r.participant2Id == p) :=
          List.mem_filter.mpr ⟨hr, by simp [hpred.1, hcase.1, hcase.2]⟩
        rw [hq1] at hmem
        exact List.not_mem_nil r hmem
      · have hmem : r ∈ db.rooms.filter
            (fun r => r.isActive && r.participant1Id == p && r.participant2Id == u) :=
          List.mem_filter.mpr ⟨hr, by simp [hpred.1, hcase.1, hcase.2]⟩
        rw [hq2] at hmem
        exact List.not_mem_nil r hmem
    · have hmem : r2 ∈ db.rooms.filter
          (fun r => r.isActive && r.participant1Id == p && r.participant2Id == u) := by
        rw [hq2]; exact List.mem_cons_self r2 t2
      obtain ⟨hin, hpred⟩ := List.mem_filter.mp hmem
      simp only [Bool.and_eq_true, beq_iff_eq] at hpred
      refine ⟨?_, r2, hin, hpred.1.1, Or.inr ⟨hpred.1.2, hpred.2⟩, ?_⟩ <;>
        simp [createRoomWithUser, hq1, hq2]
  · have hmem : r1 ∈ db.rooms.filter
        (fun r => r.isActive && r.participant1Id == u && r.participant2Id == p) := by
      rw [hq1]; exact List.mem_cons_self r1 t1
    obtain ⟨hin, hpred⟩ := List.mem_filter.mp hmem
    simp only [Bool.and_eq_true, beq_iff_eq] at hpred
    refine ⟨?_, r1, hin, hpred.1.1, Or.inl ⟨hpred.1.2, hpred.2⟩, ?_⟩ <;>
      simp [createRoomWithUser, hq1]

/-- C1 witness: in the store holding the active room (A,B), a repeated
direct match A→B returns that room (id 0) and leaves the store unchanged. -/
theorem c1_amended_witness :
    (createRoomWithUser dbPair uA uB).2 = dbPair ∧
    ∃ r ∈ dbPair.rooms, r.isActive = true ∧
      ((r.participant1Id = uA ∧ r.participant2Id = uB) ∨
       (r.participant1Id = uB ∧ r.participant2Id = uA)) ∧
      (createRoomWithUser dbPair uA uB).1.roomId = r.id :=
  c1_amended dbPair uA uB (by decide)

/-- C2 counterexample: B requests a random match while A's open room
exists; B joins it and the result reports isInitiator = false for the
requester B, contradicting the claim that the requester is always the
initiator. -/
theorem c2_counterexample :
    ((findOrCreateRoom (findOrCreateRoom db0 uA).2 uB).1).isInitiator = false := by decide

/-- C2 (amended): the requester is the initiator when a new room is
created; the requester is the responder (isInitiator = false) exactly in
the join cases: findOrCreateRoom joining an existing open room created by
someone else, and createRoomWithUser finding an existing active room that
lists the requester as participant2. -/
theorem c2_amended (db : DB) (u p : String) :
    ((findOrCreateRoom db u).1.isInitiator = false →
      ∃ r ∈ db.rooms, r.isActive = true ∧ r.participant2Id = "" ∧ r.participant1Id ≠ u ∧
        (findOrCreateRoom db u).1.roomId = r.id ∧
        (findOrCreateRoom db u).1.partnerId = r.participant1Id) ∧
    ((createRoomWithUser db u p).1.isInitiator = false →
      ∃ r ∈ db.rooms, r.isActive = true ∧ r.participant1Id = p ∧ r.participant2Id = u ∧
        (createRoomWithUser db u p).1.roomId = r.id) := by
  constructor
  · intro hfalse
    rcases hq : openSeatRooms db with _ | ⟨r, t⟩
    · simp [findOrCreateRoom, hq, createOpenRoom, createRoom] at hfalse
    · have hmem : r ∈ openSeatRooms db := by rw [hq]; exact List.mem_cons_self r t
      obtain ⟨hin, hpred⟩ := List.mem_filter.mp hmem
      simp only [Bool.and_eq_true, beq_iff_eq] at hpred
      by_cases hp : r.participant1Id = u
      · simp [findOrCreateRoom, hq, hp, createOpenRoom, createRoom] at hfalse
      · refine ⟨r, hin, hpred.1, hpred.2, hp, ?_, ?_⟩ <;> simp [findOrCreateRoom, hq, hp]
  · intro hfalse
    rcases hq1 : db.rooms.filter
        (fun r => r.isActive && r.participant1Id == u && r.participant2Id == p) with _ | ⟨r1, t1⟩
    · rcases hq2 : db.rooms.filter
          (fun r => r.isActive && r.participant1Id == p && r.participant2Id == u) with _ | ⟨r2, t2⟩
      · simp [createRoomWithUser, hq1, hq2, createRoom] at hfalse
      · have hmem : r2 ∈ db.rooms.filter
            (fun r => r.isActive && r.participant1Id == p && r.participant2Id == u) := by
          rw [hq2]; exact List.mem_cons_self r2 t2
        obtain ⟨hin, hpred⟩ := List.mem_filter.mp hmem
        simp only [Bool.and_eq_true, beq_iff_eq] at hpred
        exact ⟨r2, hin, hpred.1.1, hpred.1.2, hpred.2, by simp [createRoomWithUser, hq1, hq2]⟩
    · simp [createRoomWithUser, hq1] at hfalse

/-- C2 witness: A joins B's open room as responder: the existing open room
of B is returned with A's result reporting B as partner and A as
non-initiator. -/
theorem c2_amended_witness :
    ∃ r ∈ dbOpenB.rooms, r.isActive = true ∧ r.participant2Id = "" ∧ r.participant1Id ≠ uA ∧
      (findOrCreateRoom dbOpenB uA).1.roomId = r.id ∧
      (findOrCreateRoom dbOpenB uA).1.partnerId = r.participant1Id :=
  (c2_amended dbOpenB uA uB).1 (by decide)

/-- C3 evaluated at the failing input: candidate 7 arrives before the
remote description is set (so the handler queues it); the answer 5 then
sets the remote description — via onAnswerDelivery and equally via
handleRoomSignaling, the only code paths that set it — yet the queued
candidate is never applied, because processPendingCandidates has no call
site anywhere in VideoChat.tsx; calling it would have delivered the
candidate in order. -/
theorem c3_code_bug :
    (onAnswerDelivery (onIceCandidate initClient 7) 5).remoteDesc = some 5 ∧
    (onAnswerDelivery (onIceCandidate initClient 7) 5).applied = [] ∧
    (onAnswerDelivery (onIceCandidate initClient 7) 5).pending = [7] ∧
    (handleRoomSignaling id (onIceCandidate initClient 7) none (some 5)).applied = [] ∧
    (handleRoomSignaling id (onIceCandidate initClient 7) none (some 5)).pending = [7] ∧
    (processPendingCandidates (onAnswerDelivery (onIceCandidate initClient 7) 5)).applied = [7] := by
  decide

/-- C4 counterexample: the subscribeToAnswers callback installed by
subscribeToRoomAnswers has no consumed-answer guard, so delivering the same
answer-change notification twice to a fresh initiator results in two
setRemoteDescription calls, not one. -/
theorem c4_counterexample :
    (onAnswerDelivery initClient 5).remoteSetLog = [5] ∧
    (onAnswerDelivery (onAnswerDelivery initClient 5) 5).remoteSetLog = [5, 5] := by decide

/-- C4 (amended): the room-snapshot handler handleRoomSignaling is
idempotent — its guard on currentRemoteDescription makes a second delivery
of the same snapshot a complete no-op (the answer is consumed exactly
once); the separate subscribeToRoomAnswers path lacks this guard. -/
theorem c4_amended (answerFor : Payload → Payload) (c : Client) (offer answer : Option Payload) :
    handleRoomSignaling answerFor (handleRoomSignaling answerFor c offer answer) offer answer =
      handleRoomSignaling answerFor c offer answer := by
  obtain ⟨init, pc, rd, ld, log, ans, pend, app⟩ := c
  cases pc <;> cases init <;> cases rd <;> cases offer <;> cases answer <;>
    simp [handleRoomSignaling, applyAnswerGuarded, applyOfferGuarded]

/-- C5: for every interleaving of sends from any senders, a
subscribeToChatMessages snapshot for a room is sorted non-decreasingly by
timestamp, is a permutation of the room's stored messages, and the store
holds exactly the sent messages, in send order. -/
theorem c5_chat_ordering (events : List (Nat × String × String)) (rid : Nat) :
    List.Sorted msgLe (chatSnapshot (runSends db0 events) rid) ∧
    List.Perm (chatSnapshot (runSends db0 events) rid)
      ((runSends db0 events).messages.filter fun m => m.roomId == rid) ∧
    (runSends db0 events).messages.map (fun m => (m.roomId, m.senderId, m.content)) = events := by
  refine ⟨List.sorted_insertionSort msgLe _, List.perm_insertionSort msgLe _, ?_⟩
  simpa [db0] using runSends_messages_map events db0

/-- C6 counterexample: after the active room (A,B) is ended via
updateRoomStatus(0, false) — so no active room remains — sendChatMessage
still succeeds and appends the message, instead of failing with
SessionNotActive and appending nothing. -/
theorem c6_counterexample :
    ((updateRoomStatus dbPair 0 false).rooms.filter fun r => r.isActive) = [] ∧
    ((sendChatMessage (updateRoomStatus dbPair 0 false) 0 uA helloMsg).1).isSome = true ∧
    (sendChatMessage (updateRoomStatus dbPair 0 false) 0 uA helloMsg).2.messages.length = 1 := by
  decide

/-- C6 (amended): sendChatMessage performs no session-state check at all:
even immediately after the room is marked inactive it succeeds and appends
the ChatMessage. -/
theorem c6_amended (db : DB) (rid : Nat) (sid content : String) :
    ((sendChatMessage (updateRoomStatus db rid false) rid sid content).1).isSome = true ∧
    (sendChatMessage (updateRoomStatus db rid false) rid sid content).2.messages =
      db.messages ++ [{ id := db.nextId, roomId := rid, senderId := sid, content := content,
                        timestamp := db.now }] :=
  ⟨rfl, rfl⟩

/-- C7 evaluated at the failing input: the requester X calls
searchForPartner while the component state availableUsers is still empty
but the registry holds another user Y.  The refreshed set excluding X is
the non-empty [Y], so per the claim a partner should be selected from it;
instead the code indexes the stale empty availableUsers array
(randomUser is undefined) and aborts with a TypeError, creating nothing. -/
theorem c7_code_bug :
    (dbTwoUsers.users.filter fun u => u.uid != uX) = [{ uid := uY, isOnline := true }] ∧
    searchForPartner dbTwoUsers uX [] 0 = (SearchOutcome.typeError, dbTwoUsers) := by decide

/-- C8 counterexample: a successful random match of X with Y leaves the
presence registry untouched — both X and Y are still marked online (and
still listed by getOnlineUsers), instead of being withdrawn. -/
theorem c8_counterexample :
    (searchForPartner dbTwoUsers uX [uY] 0).1 = SearchOutcome.matched 0 uY ∧
    getOnlineUsers (searchForPartner dbTwoUsers uX [uY] 0).2 =
      [{ uid := uX, isOnline := true }, { uid := uY, isOnline := true }] := by decide

/-- C8 (amended): searchForPartner never writes the presence registry:
whatever the outcome (including a successful match), the users collection
is unchanged, so neither matched participant is withdrawn. -/
theorem c8_amended (db : DB) (selfId : String) (avail : List String) (idx : Nat) :
    (searchForPartner db selfId avail idx).2.users = db.users := by
  by_cases hc : (avail.isEmpty && (db.users.filter fun u => u.uid != selfId).isEmpty) = true
  · simp [searchForPartner, hc]
  · rcases hg : avail[idx]? with _ | ⟨partner⟩ <;> simp [searchForPartner, hc, hg, createRoom]

/-- C9: a random-match attempt that fails with NoPartnersAvailable leaves
the whole store — in particular the requester's presence record —
unchanged: the failed attempt consumes no presence state. -/
theorem c9_no_partners_preserves_presence (db : DB) (selfId : String) (avail : List String)
    (idx : Nat) (h : (searchForPartner db selfId avail idx).1 = SearchOutcome.noPartners) :
    (searchForPartner db selfId avail idx).2 = db := by
  by_cases hc : (avail.isEmpty && (db.users.filter fun u => u.uid != selfId).isEmpty) = true
  · simp [searchForPartner, hc]
  · exfalso
    rcases hg : avail[idx]? with _ | ⟨partner⟩ <;> simp [searchForPartner, hc, hg] at h

/-- C9 witness: only X is registered; X's attempt yields NoPartnersAvailable
and the store (X still online) is exactly as before. -/
theorem c9_witness : (searchForPartner dbOnlyX uX [] 0).2 = dbOnlyX :=
  c9_no_partners_preserves_presence dbOnlyX uX [] 0 (by decide)

/-- C10: findOrCreateRoom never pairs a requester with themselves: either it
joins an existing active open room whose creator differs from the
requester (returning that creator as partner, requester as responder), or
it creates a fresh room with the requester as participant1 and an empty
participant2 seat. -/
theorem c10_no_self_pairing (db : DB) (u : String) :
    (∃ r ∈ db.rooms, r.isActive = true ∧ r.participant2Id = "" ∧ r.participant1Id ≠ u ∧
       (findOrCreateRoom db u).1 =
         { roomId := r.id, partnerId := r.participant1Id, isInitiator := false }) ∨
    ((findOrCreateRoom db u).1 = { roomId := db.nextId, partnerId := "", isInitiator := true } ∧
     (findOrCreateRoom db u).2.rooms = db.rooms ++
       [{ id := db.nextId, participant1Id := u, participant2Id := "",
          isActive := true, createdAt := db.now }]) := by
  rcases hq : openSeatRooms db with _ | ⟨r, t⟩
  · right
    constructor <;> simp [findOrCreateRoom, hq, createOpenRoom, createRoom]
  · by_cases hp : r.participant1Id = u
    · right
      constructor <;> simp [findOrCreateRoom, hq, hp, createOpenRoom, createRoom]
    · left
      have hmem : r ∈ openSeatRooms db := by rw [hq]; exact List.mem_cons_self r t
      obtain ⟨hin, hpred⟩ := List.mem_filter.mp hmem
      simp only [Bool.and_eq_true, beq_iff_eq] at hpred
      exact ⟨r, hin, hpred.1, hpred.2, hp, by simp [findOrCreateRoom, hq, hp]⟩

end WorldConnect
